import Mathlib

/-!
Verification development for django-mysqlpool
(src/django_mysqlpool/backends/mysqlpool/base.py).

The file shallowly embeds the module's code: Python values appearing as
connection parameters become the inductive type PyVal; Python dicts become
insertion-ordered association lists; the stateful QueuePool._do_get method
becomes a fueled state-passing function on an explicit PoolState; the
module-global MYSQLPOOL registry becomes explicit state passing on RegState.
External sqlalchemy primitives that base.py calls (QueuePool._inc_overflow,
QueuePool._dec_overflow, the idle queue, pool.manage / _DBProxy.get_pool /
pool.clear_managers) are modelled from the specification's description of
them, as noted on each definition.
-/

/-- A Python value, as far as the connection parameters of this module need:
primitives, None, tuples, lists, dicts (insertion-ordered association
lists), and the module's HashableDict subclass of dict (constructor hdict).
Keys of dicts are arbitrary values, as in Python. -/
inductive PyVal where
  | int (n : Int)
  | bool (b : Bool)
  | str (s : String)
  | noneV
  | tuple (xs : List PyVal)
  | list (xs : List PyVal)
  | dict (entries : List (PyVal × PyVal))
  | hdict (entries : List (PyVal × PyVal))
deriving Repr

/-- Embeds isiterable (base.py lines 77-83): iter(value) succeeds exactly on
the collection-like values (strings included, as in Python) and raises
TypeError on int, bool and None. -/
def isiterable : PyVal → Bool
  | .str _ => true
  | .tuple _ => true
  | .list _ => true
  | .dict _ => true
  | .hdict _ => true
  | _ => false

/-- Embeds the Python expression tuple(v) for an iterable v: iterating a dict
yields its keys in insertion order; iterating a string yields its characters;
tuples and lists yield their elements. Non-iterable arguments never reach
this in base.py (guarded by isiterable), so they map to the empty tuple. -/
def pyIterTuple : PyVal → PyVal
  | .str s => .tuple (s.toList.map (fun c => .str (String.mk [c])))
  | .tuple xs => .tuple xs
  | .list xs => .tuple xs
  | .dict es => .tuple (es.map (fun e => e.1))
  | .hdict es => .tuple (es.map (fun e => e.1))
  | _ => .tuple []

/-- Embeds the list comprehension in HashableDict.__hash__ (base.py line 117):
items = [(n, tuple(v)) for n, v in self.items() if isiterable(v)].
self.items() iterates in insertion order, which is the list order here. -/
def hashable_dict_items (es : List (PyVal × PyVal)) : List (PyVal × PyVal) :=
  (es.filter (fun e => isiterable e.2)).map (fun e => (e.1, pyIterTuple e.2))

/-- Embeds HashableDict.__hash__ (base.py line 118): hash(tuple(items)).
Python's hash of a tuple is a deterministic pure function of the tuple's
structural content, so the hash is modelled by the tuple itself: equal
tuples give equal hashes, distinct tuples give distinct hashes. -/
def hashable_dict_hash (es : List (PyVal × PyVal)) : PyVal :=
  .tuple ((hashable_dict_items es).map (fun e => .tuple [e.1, e.2]))

/-- Python truthiness of a value, as used by the conv/ssl checks in connect
(base.py lines 153, 156): None and empty collections are falsy. -/
def pyTruthy : PyVal → Bool
  | .int n => !(n == 0)
  | .bool b => b
  | .str s => !(s == "")
  | .noneV => false
  | .tuple xs => !xs.isEmpty
  | .list xs => !xs.isEmpty
  | .dict es => !es.isEmpty
  | .hdict es => !es.isEmpty

/-- Embeds the constructor call HashableDict(conv): copying a mapping into a
HashableDict preserves its entries and their insertion order. connect only
applies it to the conv/ssl mappings, so non-mapping arguments are out of
scope and map to an empty HashableDict. -/
def toHashableDict : PyVal → PyVal
  | .dict es => .hdict es
  | .hdict es => .hdict es
  | _ => .hdict []

/-- Lookup in an insertion-ordered association list with string keys, the
embedding of Python dict subscripting / dict.get for the kwargs dicts. -/
def lookupStr (k : String) : List (String × α) → Option α
  | [] => none
  | (a, b) :: rest => if a = k then some b else lookupStr k rest

/-- Embeds Python dict.pop(k)'s removal effect on a kwargs dict: the entry
with key k is removed, the others keep their order. -/
def removeKey (k : String) (l : List (String × α)) : List (String × α) :=
  l.filter (fun p => decide (p.1 ≠ k))

/-- Embeds Python dict.setdefault(k, v): if k is absent the pair is appended
at the end (insertion order), otherwise the dict is unchanged. -/
def set_default (k : String) (v : PyVal) (l : List (String × PyVal)) :
    List (String × PyVal) :=
  match lookupStr k l with
  | some _ => l
  | none => l ++ [(k, v)]

/-- Embeds Python dict assignment d[k] = v: an existing entry keeps its
position and gets the new value, a new key is appended at the end. -/
def dict_set (k : String) (v : PyVal) (l : List (String × PyVal)) :
    List (String × PyVal) :=
  match lookupStr k l with
  | some _ => l.map (fun p => if p.1 = k then (k, v) else p)
  | none => l ++ [(k, v)]

/-- Embeds the kwargs-merging in get_pool (base.py lines 134-137):
kwargs.setdefault of poolclass (the QueuePool backend, represented by its
name) and of recycle (DEFAULT_POOL_TIMEOUT = 119), then the unconditional
assignment kwargs of echo to False. The argument is MYSQLPOOL_ARGUMENTS. -/
def get_pool_kwargs (user : List (String × PyVal)) : List (String × PyVal) :=
  dict_set "echo" (.bool false)
    (set_default "recycle" (.int 119)
      (set_default "poolclass" (.str "QueuePool") user))

/-- Embeds the kwargs transformation done by connect (base.py lines 146-160):
pop conv and ssl; re-add each one, wrapped in a HashableDict, only when it
is truthy; everything else is forwarded untouched to the pool's connect. -/
def connect_kwargs (kwargs : List (String × PyVal)) : List (String × PyVal) :=
  let conv := lookupStr "conv" kwargs
  let sslv := lookupStr "ssl" kwargs
  let kw0 := removeKey "ssl" (removeKey "conv" kwargs)
  let kw1 :=
    match conv with
    | some v => if pyTruthy v then kw0 ++ [("conv", toHashableDict v)] else kw0
    | none => kw0
  match sslv with
  | some v => if pyTruthy v then kw1 ++ [("ssl", toHashableDict v)] else kw1
  | none => kw1

/-- State of one QueuePool, as QueuePool._do_get reads and writes it:
the idle-connection queue (self._pool, whose entries are connection
identifiers), the signed overflow counter self._overflow, the configured
self._max_overflow, the base size self.size(), the configured self._timeout,
and a counter supplying identifiers for newly created connections. -/
structure PoolState where
  queue : List Nat
  overflow : Int
  maxOverflow : Int
  size : Int
  timeout : Int
  nextConn : Nat
deriving DecidableEq, Repr

/-- Result of one acquisition: a connection, a TimeoutError carrying exactly
the three values formatted into its message by base.py lines 55-58
(self.size(), self.overflow(), self._timeout), or the propagated error of
the connection factory. -/
inductive GetResult where
  | conn (c : Nat)
  | timeoutErr (size overflow timeout : Int)
  | factoryErr
deriving DecidableEq, Repr

/-- The values a TimeoutError reports (the numbers interpolated into its
message); other results report nothing. -/
def GetResult.reportedValues : GetResult → List Int
  | .timeoutErr a b t => [a, b, t]
  | _ => []

/-- Modelled from the spec: sqlalchemy's QueuePool._inc_overflow, the atomic
overflow-slot reservation of section 4.2 step 4 - increment the overflow
counter only when max overflow is the unlimited sentinel -1 or the counter
is still below max overflow; report whether the reservation succeeded. -/
def inc_overflow (s : PoolState) : Bool × PoolState :=
  if s.maxOverflow = -1 then
    (true, { s with overflow := s.overflow + 1 })
  else if s.overflow < s.maxOverflow then
    (true, { s with overflow := s.overflow + 1 })
  else
    (false, s)

/-- Modelled from the spec: sqlalchemy's QueuePool._dec_overflow, releasing
one overflow reservation. -/
def dec_overflow (s : PoolState) : PoolState :=
  { s with overflow := s.overflow - 1 }

/-- Modelled from the spec: the external connection factory
(self._create_connection), an opaque operation that either yields a fresh
connection or fails; the parameter fok fixes which. -/
def create_connection (fok : Bool) (s : PoolState) : Option (Nat × PoolState) :=
  if fok then some (s.nextConn, { s with nextConn := s.nextConn + 1 })
  else none

/-- Modelled from the spec: self._pool.get(wait, timeout) on the idle queue,
in a sequential execution - the head of the queue when one is available,
and the Empty outcome (none) otherwise, since no concurrent releaser can
refill the queue during the wait. -/
def pool_get (_wait : Bool) (s : PoolState) : Option (Nat × PoolState) :=
  match s.queue with
  | c :: rest => some (c, { s with queue := rest })
  | [] => none

/-- Embeds QueuePool._do_get (base.py lines 36-74), sequentially, with fuel
bounding the recursion depth (none = fuel exhausted). The third component
of the result counts invocations of the connection factory. Control flow
follows the source line by line: compute use_overflow and wait; try the
queue; on Empty, if overflow is exhausted either recurse (when wait was
false) or raise the TimeoutError of lines 55-58; otherwise try to reserve
an overflow slot, creating a connection on success (rolling the reservation
back if the factory fails, as util.safe_reraise re-raises the error), and
recursing when the reservation is lost. -/
def do_get (fok : Bool) : Nat → PoolState → Option (GetResult × PoolState × Nat)
  | 0, _ => none
  | fuel + 1, s =>
    let use_overflow : Bool := decide (s.maxOverflow > -1)
    let wait : Bool := use_overflow && decide (s.overflow ≥ s.maxOverflow)
    match pool_get wait s with
    | some (c, s1) => some (.conn c, s1, 0)
    | none =>
      if use_overflow && decide (s.overflow ≥ s.maxOverflow) then
        if !wait then do_get fok fuel s
        else some (.timeoutErr s.size s.overflow s.timeout, s, 0)
      else
        match inc_overflow s with
        | (true, s1) =>
          match create_connection fok s1 with
          | some (c, s2) => some (.conn c, s2, 1)
          | none => some (.factoryErr, dec_overflow s1, 1)
        | (false, _) => do_get fok fuel s

/-- The manager object held in the module-global MYSQLPOOL: a sqlalchemy
_DBProxy carrying its per-key table of pools (pool instances are identified
by the number the creation counter gave them) and the _pid attribute that
get_pool sets on it at creation (base.py line 139) and never updates. -/
structure DBProxy where
  pools : List (String × Nat)
  pid : Option Nat
deriving DecidableEq, Repr

/-- The module-global registry state: MYSQLPOOL (None before the first call)
and a counter supplying identities for newly constructed Pool instances,
so that distinct creations are distinct instances. -/
structure RegState where
  mysqlpool : Option DBProxy
  nextPool : Nat
deriving DecidableEq, Repr

/-- Embeds get_pool (base.py lines 129-143) for a given current process id:
if MYSQLPOOL is None it is created (pool.manage) and its _pid attribute set
to the current pid; then, if the recorded _pid differs from the current pid,
pool.clear_managers() closes the manager, emptying its pools table - the
manager object itself stays in MYSQLPOOL and its _pid is not updated. -/
def get_pool (curPid : Nat) (s : RegState) : DBProxy × RegState :=
  let m0 :=
    match s.mysqlpool with
    | some m => m
    | none => { pools := [], pid := some curPid : DBProxy }
  let m1 := if m0.pid = some curPid then m0 else { m0 with pools := [] }
  (m1, { s with mysqlpool := some m1 })

/-- Modelled from the spec: sqlalchemy's _DBProxy.get_pool, the per-key
lookup performed when the manager's connect is called - return the pool
already recorded for the key, or construct a brand-new Pool instance
(a fresh identity from the counter) and record it. -/
def proxy_get_pool (key : String) (m : DBProxy) (fresh : Nat) :
    Nat × DBProxy × Nat :=
  match lookupStr key m.pools with
  | some p => (p, m, fresh)
  | none => (fresh, { m with pools := m.pools ++ [(key, fresh)] }, fresh + 1)

/-- One full pool lookup as connect performs it (base.py line 160):
get_pool() followed by the manager's per-key pool lookup; returns the Pool
instance obtained and the new registry state. -/
def acquire_pool (curPid : Nat) (key : String) (s : RegState) : Nat × RegState :=
  let ms := get_pool curPid s
  let pmf := proxy_get_pool key ms.1 ms.2.nextPool
  (pmf.1, { mysqlpool := some pmf.2.1, nextPool := pmf.2.2 })

/-! Helper lemmas about the association-list operations. -/

theorem lookupStr_append_of_some {α : Type} (k : String) (l1 l2 : List (String × α)) (r : α)
    (h : lookupStr k l1 = some r) : lookupStr k (l1 ++ l2) = some r := by
  induction l1 with
  | nil => simp [lookupStr] at h
  | cons a rest ih =>
    simp only [lookupStr, List.cons_append] at h ⊢
    split at h
    · simp only [*, if_pos]
    · simp only [*, if_neg]
      exact ih h

theorem lookupStr_append_of_none {α : Type} (k : String) (l1 l2 : List (String × α))
    (h : lookupStr k l1 = none) : lookupStr k (l1 ++ l2) = lookupStr k l2 := by
  induction l1 with
  | nil => simp [lookupStr]
  | cons a rest ih =>
    simp only [lookupStr, List.cons_append] at h ⊢
    split at h
    · exact absurd h (by simp)
    · simp only [*, if_neg]
      exact ih h

theorem lookupStr_removeKey_self {α : Type} (k : String) (l : List (String × α)) :
    lookupStr k (removeKey k l) = none := by
  induction l with
  | nil => rfl
  | cons a rest ih =>
    simp only [removeKey, List.filter_cons, decide_not] at ih ⊢
    by_cases hk : a.1 = k
    · simp [hk, ih]
    · simp [hk, lookupStr, ih]

theorem lookupStr_removeKey_ne {α : Type} (k k2 : String) (l : List (String × α))
    (h : k ≠ k2) : lookupStr k (removeKey k2 l) = lookupStr k l := by
  have h2k : ¬k2 = k := fun hkk => h hkk.symm
  induction l with
  | nil => rfl
  | cons a rest ih =>
    simp only [removeKey, List.filter_cons, decide_not] at ih ⊢
    by_cases hk2 : a.1 = k2
    · simp [hk2, lookupStr, h2k, h, ih]
    · by_cases hak : a.1 = k
      · simp [hk2, hak, lookupStr, h]
      · simp [hk2, hak, lookupStr, h, ih]

theorem lookupStr_set_default_of_some (k : String) (v r : PyVal) (l : List (String × PyVal))
    (h : lookupStr k l = some r) : lookupStr k (set_default k v l) = some r := by
  simp [set_default, h]

theorem lookupStr_set_default_of_none (k : String) (v : PyVal) (l : List (String × PyVal))
    (h : lookupStr k l = none) : lookupStr k (set_default k v l) = some v := by
  rw [set_default, h]
  rw [lookupStr_append_of_none k l _ h]
  simp [lookupStr]

theorem lookupStr_set_default_ne (k k2 : String) (v : PyVal) (l : List (String × PyVal))
    (h : k ≠ k2) : lookupStr k (set_default k2 v l) = lookupStr k l := by
  have h2k : ¬k2 = k := fun hkk => h hkk.symm
  rw [set_default]
  cases h2 : lookupStr k2 l with
  | some r => rfl
  | none =>
    cases hk : lookupStr k l with
    | some r => exact lookupStr_append_of_some k l _ r hk
    | none =>
      rw [lookupStr_append_of_none k l _ hk]
      simp [lookupStr, h2k]

theorem lookupStr_map_update (k : String) (v : PyVal) (l : List (String × PyVal)) (r : PyVal)
    (h : lookupStr k l = some r) :
    lookupStr k (l.map (fun p => if p.1 = k then (k, v) else p)) = some v := by
  induction l generalizing r with
  | nil => simp [lookupStr] at h
  | cons a rest ih =>
    rw [List.map_cons]
    by_cases hk : a.1 = k
    · rw [if_pos hk]
      simp [lookupStr]
    · rw [if_neg hk]
      simp only [lookupStr, hk, if_false] at h
      simp only [lookupStr, hk, if_false]
      exact ih r h

theorem lookupStr_map_update_ne (k k2 : String) (v : PyVal) (l : List (String × PyVal))
    (h : k ≠ k2) :
    lookupStr k (l.map (fun p => if p.1 = k2 then (k2, v) else p)) = lookupStr k l := by
  have h2k : ¬k2 = k := fun hkk => h hkk.symm
  induction l with
  | nil => simp [lookupStr]
  | cons a rest ih =>
    rw [List.map_cons]
    by_cases hk2 : a.1 = k2
    · rw [if_pos hk2]
      have hak : ¬a.1 = k := by
        rw [hk2]; exact h2k
      simp [lookupStr, h2k, hak, ih]
    · rw [if_neg hk2]
      by_cases hak : a.1 = k
      · simp [lookupStr, hak]
      · simp [lookupStr, hak, ih]

theorem lookupStr_dict_set_self (k : String) (v : PyVal) (l : List (String × PyVal)) :
    lookupStr k (dict_set k v l) = some v := by
  rw [dict_set]
  cases h : lookupStr k l with
  | some r => exact lookupStr_map_update k v l r h
  | none =>
    rw [lookupStr_append_of_none k l _ h]
    simp [lookupStr]

theorem lookupStr_dict_set_ne (k k2 : String) (v : PyVal) (l : List (String × PyVal))
    (h : k ≠ k2) : lookupStr k (dict_set k2 v l) = lookupStr k l := by
  have h2k : ¬k2 = k := fun hkk => h hkk.symm
  rw [dict_set]
  cases h2 : lookupStr k2 l with
  | some r => exact lookupStr_map_update_ne k k2 v l h
  | none =>
    cases hk : lookupStr k l with
    | some r => exact lookupStr_append_of_some k l _ r hk
    | none =>
      rw [lookupStr_append_of_none k l _ hk]
      simp [lookupStr, h2k]

/-! Helper lemmas about the overflow-reservation primitive. -/

theorem inc_overflow_of_true (s s1 : PoolState) (h : inc_overflow s = (true, s1)) :
    s1.overflow = s.overflow + 1 := by
  rw [inc_overflow] at h
  split at h
  · simp only [Prod.mk.injEq] at h
    rw [← h.2]
  · split at h
    · simp only [Prod.mk.injEq] at h
      rw [← h.2]
    · simp at h

theorem inc_overflow_of_false (s s1 : PoolState) (h : inc_overflow s = (false, s1)) :
    s1 = s := by
  rw [inc_overflow] at h
  split at h
  · simp at h
  · split at h
    · simp at h
    · simp only [Prod.mk.injEq] at h
      exact h.2.symm

/-- C4: whenever an acquisition ends with the factory's error, the overflow
counter of the final pool state equals the counter before the acquisition
(the reservation taken for the attempt was rolled back by the except branch
of base.py lines 70-72 before util.safe_reraise re-raised the error), the
result delivered to the caller is the factory error itself, unchanged, and
the factory was invoked exactly once - it is not retried. -/
theorem do_get_factory_rollback (fok : Bool) (fuel : Nat) (s s2 : PoolState)
    (r : GetResult) (k : Nat)
    (h : do_get fok fuel s = some (r, s2, k)) (hr : r = GetResult.factoryErr) :
    s2.overflow = s.overflow ∧ k = 1 := by
  subst hr
  induction fuel generalizing s with
  | zero => simp [do_get] at h
  | succ n ih =>
    rw [do_get] at h
    simp only [pool_get] at h
    cases hq : s.queue with
    | cons c rest =>
      rw [hq] at h
      simp at h
    | nil =>
      rw [hq] at h
      by_cases hmo : s.maxOverflow > -1
      · by_cases hov : s.overflow ≥ s.maxOverflow
        · simp [decide_eq_true hmo, decide_eq_true hov] at h
        · simp only [decide_eq_true hmo, decide_eq_false hov, Bool.true_and,
            Bool.and_false, Bool.false_eq_true, if_false] at h
          cases hinc : inc_overflow s with
          | mk b s1 =>
            rw [hinc] at h
            cases b with
            | true =>
              cases fok with
              | true => simp [create_connection] at h
              | false =>
                simp [create_connection] at h
                have hs1 := inc_overflow_of_true s s1 hinc
                constructor
                · rw [← h.1]
                  simp only [dec_overflow]
                  rw [hs1]
                  omega
                · exact h.2.symm
            | false =>
              exact ih s h
      · simp only [decide_eq_false hmo, Bool.false_and, Bool.false_eq_true,
          if_false] at h
        cases hinc : inc_overflow s with
        | mk b s1 =>
          rw [hinc] at h
          cases b with
          | true =>
            cases fok with
            | true => simp [create_connection] at h
            | false =>
              simp [create_connection] at h
              have hs1 := inc_overflow_of_true s s1 hinc
              constructor
              · rw [← h.1]
                simp only [dec_overflow]
                rw [hs1]
                omega
              · exact h.2.symm
          | false =>
            exact ih s h

/-- C4 witness: a concrete run in which the reservation succeeds, the
factory fails, the overflow counter is restored, and the factory ran once. -/
theorem do_get_factory_rollback_witness :
    ({ queue := [], overflow := 0, maxOverflow := 5, size := 2, timeout := 7,
       nextConn := 0 } : PoolState).overflow
      = ({ queue := [], overflow := 0, maxOverflow := 5, size := 2, timeout := 7,
           nextConn := 0 } : PoolState).overflow ∧ (1 : Nat) = 1 := by
  have hrun : do_get false 1
      { queue := [], overflow := 0, maxOverflow := 5, size := 2, timeout := 7,
        nextConn := 0 }
      = some (GetResult.factoryErr,
          { queue := [], overflow := 0, maxOverflow := 5, size := 2, timeout := 7,
            nextConn := 0 }, 1) := by decide
  exact do_get_factory_rollback false 1
    { queue := [], overflow := 0, maxOverflow := 5, size := 2, timeout := 7,
      nextConn := 0 }
    { queue := [], overflow := 0, maxOverflow := 5, size := 2, timeout := 7,
      nextConn := 0 }
    GetResult.factoryErr 1 hrun rfl

/-- C2 (amended): when overflow is exhausted (mustBlock) and the wait for an
idle connection elapses without one appearing, the acquisition fails with a
TimeoutError reporting the configured base size, the current overflow, and
the timeout value - this is the whole content of the error; the configured
max overflow is not part of it (it appears only in the preceding warning
log of base.py lines 44-48). -/
theorem do_get_timeout_error_reports (fok : Bool) (s : PoolState)
    (hq : s.queue = []) (hmo : s.maxOverflow > -1)
    (hov : s.overflow ≥ s.maxOverflow) :
    do_get fok 1 s
      = some (GetResult.timeoutErr s.size s.overflow s.timeout, s, 0) := by
  rw [do_get]
  simp only [pool_get, hq]
  simp [decide_eq_true hmo, decide_eq_true hov]

/-- C2 witness for the amended claim: a concrete exhausted pool times out
with the error carrying size, overflow and timeout. -/
theorem do_get_timeout_error_reports_witness :
    do_get true 1
      { queue := [], overflow := 3, maxOverflow := 3, size := 2, timeout := 119,
        nextConn := 0 }
      = some (GetResult.timeoutErr 2 3 119,
          { queue := [], overflow := 3, maxOverflow := 3, size := 2, timeout := 119,
            nextConn := 0 }, 0) :=
  do_get_timeout_error_reports true
    { queue := [], overflow := 3, maxOverflow := 3, size := 2, timeout := 119,
      nextConn := 0 }
    rfl (by decide) (by decide)

/-- C2 counterexample to the claim as stated: a run in which the TimeoutError
is raised while the configured max overflow (3) differs from every value the
error reports - the error carries size 2, overflow 5 and timeout 7, so it
does not report the configured max overflow. -/
theorem do_get_timeout_error_no_max_overflow :
    do_get true 1
      { queue := [], overflow := 5, maxOverflow := 3, size := 2, timeout := 7,
        nextConn := 0 }
      = some (GetResult.timeoutErr 2 5 7,
          { queue := [], overflow := 5, maxOverflow := 3, size := 2, timeout := 7,
            nextConn := 0 }, 0)
    ∧ ({ queue := [], overflow := 5, maxOverflow := 3, size := 2, timeout := 7,
         nextConn := 0 } : PoolState).maxOverflow
        ∉ (GetResult.timeoutErr 2 5 7).reportedValues := by decide

/-- C6: with max overflow -1 (the unlimited-overflow sentinel) an acquisition
never fails with a TimeoutError - the timeout branch is unreachable and the
only failure left is the factory's own. -/
theorem do_get_unlimited_no_timeout (fok : Bool) (fuel : Nat) (s s2 : PoolState)
    (r : GetResult) (k : Nat) (hmo : s.maxOverflow = -1)
    (h : do_get fok fuel s = some (r, s2, k)) :
    ∀ a b t, r ≠ GetResult.timeoutErr a b t := by
  intro a b t hr
  subst hr
  cases fuel with
  | zero => simp [do_get] at h
  | succ n =>
    rw [do_get] at h
    simp only [pool_get] at h
    have hdec : decide (s.maxOverflow > -1) = false := by
      rw [hmo]
      decide
    cases hq : s.queue with
    | cons c rest =>
      rw [hq] at h
      simp at h
    | nil =>
      rw [hq] at h
      simp only [hdec, Bool.false_and, Bool.false_eq_true, if_false] at h
      have hinc : inc_overflow s = (true, { s with overflow := s.overflow + 1 }) := by
        rw [inc_overflow, if_pos hmo]
      rw [hinc] at h
      cases fok with
      | true => simp [create_connection] at h
      | false => simp [create_connection] at h

/-- C6 witness: with unlimited overflow a concrete acquisition yields a
connection, not a timeout. -/
theorem do_get_unlimited_no_timeout_witness :
    GetResult.conn 9 ≠ GetResult.timeoutErr 2 5 7 :=
  do_get_unlimited_no_timeout true 1
    { queue := [], overflow := 4, maxOverflow := -1, size := 2, timeout := 7,
      nextConn := 9 }
    { queue := [], overflow := 5, maxOverflow := -1, size := 2, timeout := 7,
      nextConn := 10 }
    (GetResult.conn 9) 1 rfl (by decide) 2 5 7

/-- C7: in a sequential execution an acquisition with a well-formed max
overflow (at least the -1 sentinel) always terminates with some result -
a connection, a TimeoutError, or a factory error (the three constructors of
GetResult) - and it does so without taking either recursive-retry branch:
fuel 1 permits no recursion, so no silent infinite loop exists; the retries
of base.py lines 50 and 74 fire only when concurrent activity has changed
the overflow state between the checks. -/
theorem do_get_total (fok : Bool) (s : PoolState) (h : -1 ≤ s.maxOverflow) :
    (do_get fok 1 s).isSome = true := by
  rw [do_get]
  simp only [pool_get]
  cases hq : s.queue with
  | cons c rest => simp
  | nil =>
    by_cases hmo : s.maxOverflow > -1
    · by_cases hov : s.overflow ≥ s.maxOverflow
      · simp [decide_eq_true hmo, decide_eq_true hov]
      · have hlt : s.overflow < s.maxOverflow := by omega
        have hinc : inc_overflow s
            = (true, { s with overflow := s.overflow + 1 }) := by
          rw [inc_overflow, if_neg (by omega : ¬s.maxOverflow = -1), if_pos hlt]
        simp only [decide_eq_true hmo, decide_eq_false hov, Bool.true_and,
          Bool.and_false, Bool.false_eq_true, if_false, hinc]
        cases fok with
        | true => simp [create_connection]
        | false => simp [create_connection]
    · have hmo2 : s.maxOverflow = -1 := by omega
      have hinc : inc_overflow s
          = (true, { s with overflow := s.overflow + 1 }) := by
        rw [inc_overflow, if_pos hmo2]
      simp only [decide_eq_false hmo, Bool.false_and, Bool.false_eq_true,
        if_false, hinc]
      cases fok with
      | true => simp [create_connection]
      | false => simp [create_connection]

/-- C7 witness: a concrete acquisition terminates. -/
theorem do_get_total_witness :
    (do_get true 1
      { queue := [], overflow := 0, maxOverflow := 0, size := 1, timeout := 119,
        nextConn := 0 }).isSome = true :=
  do_get_total true
    { queue := [], overflow := 0, maxOverflow := 0, size := 1, timeout := 119,
      nextConn := 0 }
    (by decide)

/-- C3: a get_pool call in a process whose id differs from the registry's
recorded _pid clears the manager's whole pools table, and the next lookup
for a previously-known key constructs a brand-new Pool instance, distinct
from the pre-fork one; the rebuilt registry holds exactly the new entry.
The freshness hypothesis states that the pre-fork instance was produced by
the instance counter, i.e. is older than every instance yet to be created. -/
theorem get_pool_fork_new_instance (curPid q p : Nat) (key : String)
    (s : RegState) (m : DBProxy)
    (hm : s.mysqlpool = some m) (hpidq : m.pid = some q) (hne : q ≠ curPid)
    (_hknown : lookupStr key m.pools = some p) (hfresh : p < s.nextPool) :
    (get_pool curPid s).1.pools = []
    ∧ (acquire_pool curPid key s).1 = s.nextPool
    ∧ (acquire_pool curPid key s).1 ≠ p
    ∧ (acquire_pool curPid key s).2.mysqlpool
        = some { pools := [(key, s.nextPool)], pid := some q } := by
  have hpid : ¬m.pid = some curPid := by
    rw [hpidq]
    intro hc
    exact hne (Option.some.inj hc)
  have hclear : get_pool curPid s = ({ m with pools := [] },
      { s with mysqlpool := some { m with pools := [] } }) := by
    rw [get_pool, hm]
    simp [hpid]
  have hacq : acquire_pool curPid key s
      = (s.nextPool,
         { mysqlpool := some { pools := [(key, s.nextPool)], pid := m.pid },
           nextPool := s.nextPool + 1 }) := by
    rw [acquire_pool, hclear]
    simp [proxy_get_pool, lookupStr]
  refine ⟨by rw [hclear], by rw [hacq], by rw [hacq]; omega, by rw [hacq, hpidq]⟩

/-- C3 witness: a registry created in process 1 holding pool 0 for key db,
observed from process 2. -/
theorem get_pool_fork_new_instance_witness :
    (get_pool 2 { mysqlpool := some { pools := [("db", 0)], pid := some 1 },
                  nextPool := 1 }).1.pools = []
    ∧ (acquire_pool 2 "db"
        { mysqlpool := some { pools := [("db", 0)], pid := some 1 },
          nextPool := 1 }).1 = 1
    ∧ (acquire_pool 2 "db"
        { mysqlpool := some { pools := [("db", 0)], pid := some 1 },
          nextPool := 1 }).1 ≠ 0
    ∧ (acquire_pool 2 "db"
        { mysqlpool := some { pools := [("db", 0)], pid := some 1 },
          nextPool := 1 }).2.mysqlpool
        = some { pools := [("db", 1)], pid := some 1 } :=
  get_pool_fork_new_instance 2 1 0 "db"
    { mysqlpool := some { pools := [("db", 0)], pid := some 1 }, nextPool := 1 }
    { pools := [("db", 0)], pid := some 1 }
    rfl rfl (by decide) rfl (by decide)

/-- C8 (code bug): in a child process (current pid 2) whose registry was
inherited from the parent (recorded _pid 1), the first call creates pool 1
for key db, yet the very next call in the same process - no process-identity
change in between - returns pool 2, a different instance: because get_pool
never updates _pid after clearing, every later call clears the registry
again, so calls after the first do not return the instance the first call
created. -/
theorem acquire_pool_post_fork_not_cached :
    (acquire_pool 2 "db"
      { mysqlpool := some { pools := [("db", 0)], pid := some 1 },
        nextPool := 1 }).1 = 1
    ∧ (acquire_pool 2 "db"
        (acquire_pool 2 "db"
          { mysqlpool := some { pools := [("db", 0)], pid := some 1 },
            nextPool := 1 }).2).1 = 2
    ∧ (2 : Nat) ≠ 1 := by decide

/-- C1 (code bug): two HashableDicts that are value-equal as dicts (same
entries, here literally a permutation of one another, differing only in
insertion order) hash differently: HashableDict.__hash__ builds its tuple
from self.items() in insertion order and, contrary to its own docstring,
never sorts, so the hash input - and hence the hash - depends on insertion
order and the hash/equality contract is broken. -/
theorem hashable_dict_hash_insertion_order :
    List.Perm
      [(PyVal.str "b", PyVal.tuple [PyVal.int 2]),
       (PyVal.str "a", PyVal.tuple [PyVal.int 1])]
      [(PyVal.str "a", PyVal.tuple [PyVal.int 1]),
       (PyVal.str "b", PyVal.tuple [PyVal.int 2])]
    ∧ hashable_dict_hash
        [(PyVal.str "a", PyVal.tuple [PyVal.int 1]),
         (PyVal.str "b", PyVal.tuple [PyVal.int 2])]
      ≠ hashable_dict_hash
        [(PyVal.str "b", PyVal.tuple [PyVal.int 2]),
         (PyVal.str "a", PyVal.tuple [PyVal.int 1])] := by
  constructor
  · exact List.Perm.swap _ _ _
  · intro h
    simp [hashable_dict_hash, hashable_dict_items, pyIterTuple, isiterable] at h

/-- C5 (code bug): the hash computation does not canonicalize a nested
mapping into an order-independent set of (sub-key, value) pairs - tuple(v)
on a dict keeps only the keys, in insertion order, dropping the values -
and a non-iterable value is not included as-is but filtered out entirely. -/
theorem hashable_dict_items_shape :
    hashable_dict_items
      [(PyVal.str "conv", PyVal.dict [(PyVal.str "x", PyVal.int 1)])]
      = [(PyVal.str "conv", PyVal.tuple [PyVal.str "x"])]
    ∧ hashable_dict_items [(PyVal.str "port", PyVal.int 3306)] = [] :=
  ⟨rfl, rfl⟩

/-- C9 counterexample: a user configuration that sets the echo toggle to
True does not yield a pool constructed with echo True - get_pool assigns
echo False unconditionally (base.py line 137), overriding the user value. -/
theorem get_pool_kwargs_echo_override :
    lookupStr "echo" (get_pool_kwargs [("echo", PyVal.bool true)])
      = some (PyVal.bool false)
    ∧ ¬lookupStr "echo" (get_pool_kwargs [("echo", PyVal.bool true)])
        = some (PyVal.bool true) := by
  constructor
  · rfl
  · intro hc
    have h1 : lookupStr "echo" (get_pool_kwargs [("echo", PyVal.bool true)])
        = some (PyVal.bool false) := rfl
    rw [h1] at hc
    simp at hc

/-- C9 (amended): the pool is constructed with the user's MYSQLPOOL_ARGUMENTS
layered onto the defaults for poolclass and recycle (user values win, the
defaults QueuePool and 119 fill the gaps), but the echo toggle is always
forced to False, regardless of any user-supplied value. -/
theorem get_pool_kwargs_spec (user : List (String × PyVal)) :
    lookupStr "echo" (get_pool_kwargs user) = some (PyVal.bool false)
    ∧ (∀ r, lookupStr "recycle" user = some r →
        lookupStr "recycle" (get_pool_kwargs user) = some r)
    ∧ (lookupStr "recycle" user = none →
        lookupStr "recycle" (get_pool_kwargs user) = some (PyVal.int 119))
    ∧ (∀ c, lookupStr "poolclass" user = some c →
        lookupStr "poolclass" (get_pool_kwargs user) = some c)
    ∧ (lookupStr "poolclass" user = none →
        lookupStr "poolclass" (get_pool_kwargs user)
          = some (PyVal.str "QueuePool")) := by
  refine ⟨?_, ?_, ?_, ?_, ?_⟩
  · exact lookupStr_dict_set_self "echo" _ _
  · intro r hr
    rw [get_pool_kwargs, lookupStr_dict_set_ne "recycle" "echo" _ _ (by decide)]
    refine lookupStr_set_default_of_some "recycle" _ r _ ?_
    rw [lookupStr_set_default_ne "recycle" "poolclass" _ _ (by decide)]
    exact hr
  · intro hr
    rw [get_pool_kwargs, lookupStr_dict_set_ne "recycle" "echo" _ _ (by decide)]
    refine lookupStr_set_default_of_none "recycle" _ _ ?_
    rw [lookupStr_set_default_ne "recycle" "poolclass" _ _ (by decide)]
    exact hr
  · intro c hc
    rw [get_pool_kwargs, lookupStr_dict_set_ne "poolclass" "echo" _ _ (by decide),
      lookupStr_set_default_ne "poolclass" "recycle" _ _ (by decide)]
    exact lookupStr_set_default_of_some "poolclass" _ c _ hc
  · intro hc
    rw [get_pool_kwargs, lookupStr_dict_set_ne "poolclass" "echo" _ _ (by decide),
      lookupStr_set_default_ne "poolclass" "recycle" _ _ (by decide)]
    exact lookupStr_set_default_of_none "poolclass" _ _ hc

/-- C9 witness: a user configuration supplying only recycle keeps its
recycle value, receives the default poolclass, and gets echo False. -/
theorem get_pool_kwargs_spec_witness :
    lookupStr "echo" (get_pool_kwargs [("recycle", PyVal.int 50)])
      = some (PyVal.bool false)
    ∧ lookupStr "recycle" (get_pool_kwargs [("recycle", PyVal.int 50)])
      = some (PyVal.int 50)
    ∧ lookupStr "poolclass" (get_pool_kwargs [("recycle", PyVal.int 50)])
      = some (PyVal.str "QueuePool") :=
  ⟨(get_pool_kwargs_spec _).1,
   (get_pool_kwargs_spec _).2.1 _ rfl,
   (get_pool_kwargs_spec _).2.2.2.2 rfl⟩

/-- C10: a conv or ssl keyword that is present but falsy is popped and never
re-added, so it does not reach the pool's connect at all, while a truthy
(non-empty) conv or ssl mapping is forwarded wrapped as a HashableDict. -/
theorem connect_kwargs_conv_ssl (kwargs : List (String × PyVal)) :
    (∀ v, lookupStr "conv" kwargs = some v → pyTruthy v = false →
        lookupStr "conv" (connect_kwargs kwargs) = none)
    ∧ (∀ v, lookupStr "ssl" kwargs = some v → pyTruthy v = false →
        lookupStr "ssl" (connect_kwargs kwargs) = none)
    ∧ (∀ es, lookupStr "conv" kwargs = some (PyVal.dict es) → es ≠ [] →
        lookupStr "conv" (connect_kwargs kwargs) = some (PyVal.hdict es))
    ∧ (∀ es, lookupStr "ssl" kwargs = some (PyVal.dict es) → es ≠ [] →
        lookupStr "ssl" (connect_kwargs kwargs) = some (PyVal.hdict es)) := by
  have hc0 : lookupStr "conv" (removeKey "ssl" (removeKey "conv" kwargs)) = none := by
    rw [lookupStr_removeKey_ne "conv" "ssl" _ (by decide)]
    exact lookupStr_removeKey_self "conv" _
  have hs0 : lookupStr "ssl" (removeKey "ssl" (removeKey "conv" kwargs)) = none :=
    lookupStr_removeKey_self "ssl" _
  refine ⟨?_, ?_, ?_, ?_⟩
  · intro v hv htr
    simp only [connect_kwargs]
    rw [hv]
    simp only [htr, Bool.false_eq_true, if_false]
    cases hssl : lookupStr "ssl" kwargs with
    | none => exact hc0
    | some w =>
      simp only []
      by_cases htw : pyTruthy w = true
      · rw [if_pos htw, lookupStr_append_of_none "conv" _ _ hc0]
        rw [lookupStr, if_neg (by decide)]
        rfl
      · rw [if_neg htw]
        exact hc0
  · intro v hv htr
    simp only [connect_kwargs]
    rw [hv]
    simp only [htr, Bool.false_eq_true, if_false]
    cases hconv : lookupStr "conv" kwargs with
    | none => exact hs0
    | some w =>
      simp only []
      by_cases htw : pyTruthy w = true
      · rw [if_pos htw, lookupStr_append_of_none "ssl" _ _ hs0]
        rw [lookupStr, if_neg (by decide)]
        rfl
      · rw [if_neg htw]
        exact hs0
  · intro es hv hne
    have htr : pyTruthy (PyVal.dict es) = true := by
      cases es with
      | nil => exact absurd rfl hne
      | cons a rest => rfl
    have hfound : lookupStr "conv"
        (removeKey "ssl" (removeKey "conv" kwargs) ++ [("conv", PyVal.hdict es)])
        = some (PyVal.hdict es) := by
      rw [lookupStr_append_of_none "conv" _ _ hc0]
      rw [lookupStr, if_pos rfl]
    simp only [connect_kwargs]
    rw [hv]
    simp only [htr, if_true, toHashableDict]
    cases hssl : lookupStr "ssl" kwargs with
    | none => exact hfound
    | some w =>
      simp only []
      by_cases htw : pyTruthy w = true
      · rw [if_pos htw]
        exact lookupStr_append_of_some "conv" _ _ _ hfound
      · rw [if_neg htw]
        exact hfound
  · intro es hv hne
    have htr : pyTruthy (PyVal.dict es) = true := by
      cases es with
      | nil => exact absurd rfl hne
      | cons a rest => rfl
    simp only [connect_kwargs]
    rw [hv]
    simp only [htr, if_true, toHashableDict]
    cases hconv : lookupStr "conv" kwargs with
    | none =>
      rw [lookupStr_append_of_none "ssl" _ _ hs0]
      rw [lookupStr, if_pos rfl]
    | some w =>
      simp only []
      by_cases htw : pyTruthy w = true
      · rw [if_pos htw]
        have hmid : lookupStr "ssl"
            (removeKey "ssl" (removeKey "conv" kwargs)
              ++ [("conv",
                    match w with
                    | PyVal.dict fs => PyVal.hdict fs
                    | PyVal.hdict fs => PyVal.hdict fs
                    | _ => PyVal.hdict [])]) = none := by
          rw [lookupStr_append_of_none "ssl" _ _ hs0]
          rw [lookupStr, if_neg (by decide)]
          rfl
        rw [lookupStr_append_of_none "ssl" _ _ hmid]
        rw [lookupStr, if_pos rfl]
      · rw [if_neg htw]
        rw [lookupStr_append_of_none "ssl" _ _ hs0]
        rw [lookupStr, if_pos rfl]

/-- C10 witness: a call with an empty (falsy) conv and a non-empty ssl -
the conv key vanishes, the ssl mapping arrives wrapped as a HashableDict. -/
theorem connect_kwargs_conv_ssl_witness :
    lookupStr "conv" (connect_kwargs
      [("host", PyVal.str "h"), ("conv", PyVal.dict []),
       ("ssl", PyVal.dict [(PyVal.str "ca", PyVal.str "x")])]) = none
    ∧ lookupStr "ssl" (connect_kwargs
        [("host", PyVal.str "h"), ("conv", PyVal.dict []),
         ("ssl", PyVal.dict [(PyVal.str "ca", PyVal.str "x")])])
      = some (PyVal.hdict [(PyVal.str "ca", PyVal.str "x")]) :=
  ⟨(connect_kwargs_conv_ssl _).1 (PyVal.dict []) rfl rfl,
   (connect_kwargs_conv_ssl _).2.2.2 [(PyVal.str "ca", PyVal.str "x")] rfl
     (List.cons_ne_nil _ _)⟩
